import Mathlib

/-!
Verification of the routing / handoff logic of a two-strategy multi-agent
supervisor (structured-decision router in `agents/command_send.py`, tool-call
router in `agents/handoff_tools.py`, shared state in `utils.py`).

The LLM calls are stubbed as explicit function parameters: the code under
verification is the pure routing logic around them. The framework
`add_messages` reducer (merge-by-id, append when fresh) is modelled
explicitly, since the router state updates pass through it.
-/

namespace MultiAgent

/-- Message roles used by the chat framework. -/
inductive Role where
  | user
  | assistant
  | system
  | tool
deriving DecidableEq, Repr

/-- A tool invocation requested by an assistant message. -/
structure ToolCall where
  id : String
  name : String
  reason : String
  context : String
deriving DecidableEq, Repr

/-- A chat message: role, content, optional tool-call list (assistant),
optional name and tool_call_id (tool results), and the framework-level
message id used by the merge reducer. -/
structure Message where
  id : Option String
  role : Role
  content : String
  tool_calls : List ToolCall
  name : Option String
  tool_call_id : Option String
deriving DecidableEq, Repr

/-- Conversation state, from `utils.py` `State`: the message sequence plus
two optional fields. -/
structure State where
  messages : List Message
  customer_id : Option Int
  loaded_memory : Option String
deriving DecidableEq, Repr

/-- A system message carrying a prompt (no id yet). -/
def systemMessage (content : String) : Message :=
  { id := none, role := Role.system, content := content,
    tool_calls := [], name := none, tool_call_id := none }

/-- The dict message `\x7b"role": "user", "content": c\x7d` built by the
structured-decision supervisor for the Send payload. -/
def userDictMessage (content : String) : Message :=
  { id := none, role := Role.user, content := content,
    tool_calls := [], name := none, tool_call_id := none }

/-- Two messages carry the same (present) framework id. -/
def sameId (a b : Message) : Bool :=
  match a.id, b.id with
  | some x, some y => x == y
  | _, _ => false

/-- One step of the `add_messages` reducer: a message whose id matches an
existing one replaces it in place, otherwise it is appended. -/
def upsert (existing : List Message) (m : Message) : List Message :=
  if existing.any (fun e => sameId e m) then
    existing.map (fun e => if sameId e m then m else e)
  else
    existing ++ [m]

/-- The `add_messages` reducer of the state graph: merge the new messages
into the existing sequence one by one. -/
def add_messages (existing new : List Message) : List Message :=
  new.foldl upsert existing

/-- A state-update patch as produced by the routers: a list of messages fed
to the `add_messages` reducer. -/
structure StateUpdate where
  messages : List Message
deriving DecidableEq, Repr

/-- Apply a router state update to the authoritative state via the
`add_messages` reducer on the messages field. -/
def applyUpdate (s : State) (u : StateUpdate) : State :=
  { s with messages := add_messages s.messages u.messages }

/-- The framework terminal node name (`END`). -/
def END : String := "__end__"

/-- The framework entry node name (`START`). -/
def START : String := "__start__"

/-- The goto part of a Command: either a list of Send packets (target node
paired with the custom input state) or a plain node name. -/
inductive Goto where
  | sends (l : List (String × State))
  | node (n : String)
deriving DecidableEq, Repr

/-- A Command returned by a routing function: navigation target plus an
optional state update. -/
structure Command where
  goto : Goto
  update : Option StateUpdate
deriving DecidableEq, Repr

/-- The node names a Command navigates to. -/
def commandTargets (c : Command) : List String :=
  match c.goto with
  | Goto.sends l => l.map (fun p => p.1)
  | Goto.node n => [n]

namespace CommandSend

/-- Structured routing decision, from the `Step` Pydantic model: target
subagent name and instruction context. The Python code tests the field for
truthiness, so it is modelled as a plain string ("" = falsy/unset). -/
structure Step where
  subagent : String
  context : String
deriving DecidableEq, Repr

/-- Supervisor prompt of the structured-decision router. -/
def supervisor_prompt : String :=
  "You are an expert customer support assistant for a digital music store. You can handle music catalog or invoice related question regarding past purchases, song or album availabilities. \nYour primary role is to serve as a supervisor/planner for this multi-agent team that helps answer queries from customers, and generate the next agent to route to. \n\nYour team is composed of two subagents that you can use to help answer the customer\x27s request:\n1. music_catalog_subagent: this subagent has access to user\x27s saved music preferences. It can also retrieve information about the digital music store\x27s music \ncatalog (albums, tracks, songs, etc.) from the database. \n2. invoice_information_subagent: this subagent is able to retrieve information about a customer\x27s past purchases or invoices \nfrom the database. \n\nBased on the existing steps that have been taken in the messages, your role is to generate the next subagent that needs to be called as well as the context they need to answer user queries. \nThis could be one step in an inquiry that needs multiple sub-agent calls. \nIf subagents are no longer needed to answer the user question or if a question is unrelated to music or invoice, return END. \n"

/-- Summarization prompt used on the END branch. -/
def summary_prompt : String :=
  "\n            You are an expert customer support assistant for a digital music store. You can handle music catalog or invoice related question regarding past purchases, song or album availabilities. \n            Your primary role is to serve as a supervisor this multi-agent team that helps answer queries from customers. \n            Respond to the customer through summarizing the conversation, including individual responses from subagents. \n            If a question is unrelated to music or invoice, politely remind the customer regarding your scope of work. Do not answer unrelated answers. \n            "

/-- The structured-decision supervisor of `command_send.py`. The two LLM
calls are stubbed: `router_model` stands for the structured-output model,
`model` for the plain chat model used on the END branch. The Python
function either returns a Command, falls through returning None, or raises
ValueError; this is `Except.ok (some c)`, `Except.ok none`, `Except.error`. -/
def supervisor (state : State) (router_model : List Message → Step)
    (model : List Message → Message) : Except String (Option Command) :=
  let result := router_model (systemMessage supervisor_prompt :: state.messages)
  if result.subagent ≠ "" then
    let subagent := result.subagent
    if subagent = "music_catalog_subagent" then
      let agent_input : State := { state with messages := [userDictMessage result.context] }
      Except.ok (some { goto := Goto.sends [(subagent, agent_input)], update := none })
    else if subagent = "invoice_information_subagent" then
      let agent_input : State := { state with messages := [userDictMessage result.context] }
      Except.ok (some { goto := Goto.sends [(subagent, agent_input)], update := none })
    else if subagent = "END" then
      let messages := model (systemMessage summary_prompt :: state.messages)
      let update : StateUpdate := { messages := [messages] }
      Except.ok (some { goto := Goto.node END, update := some update })
    else
      Except.ok none
  else
    Except.error "Invalid step"

/-- Nodes of the structured-decision graph (`add_node` calls). -/
def workflow_nodes : List String :=
  ["supervisor", "music_catalog_subagent", "invoice_information_subagent"]

/-- Static edges of the structured-decision graph (`add_edge` calls). -/
def workflow_edges : List (String × String) :=
  [(START, "supervisor"),
   ("music_catalog_subagent", "supervisor"),
   ("invoice_information_subagent", "supervisor")]

/-- Declared Command destinations of the supervisor node. -/
def supervisor_destinations : List String :=
  ["music_catalog_subagent", "invoice_information_subagent", "__end__"]

/-- Successor node names of a node in the structured-decision graph:
static edges plus the declared Command destinations of the supervisor. -/
def successors (n : String) : List String :=
  (workflow_edges.filter (fun e => e.1 == n)).map (fun e => e.2) ++
    (if n == "supervisor" then supervisor_destinations else [])

end CommandSend

namespace HandoffTools

/-- Tool runtime injected into a handoff tool: current state and the id of
the tool call being answered. -/
structure ToolRuntime where
  state : State
  tool_call_id : String
deriving DecidableEq, Repr

/-- The handoff ToolMessage built by both transfer tools. -/
def transferToolMessage (agent_name tool_name reason context : String)
    (tcid : String) : Message :=
  { id := none, role := Role.tool,
    content := "Successfully transferred to " ++ agent_name ++ ". Reason: "
      ++ reason ++ ". Context: " ++ context,
    tool_calls := [], name := some tool_name, tool_call_id := some tcid }

/-- The `transfer-to-invoice-agent` tool of `handoff_tools.py`: append a
synthetic handoff ToolMessage to the full history and navigate to the
invoice subagent. -/
def transfer_to_invoice_agent (runtime : ToolRuntime)
    (reason : String) (context : String) : Command :=
  let agent_name := "invoice_information_subagent"
  let tool_message := transferToolMessage agent_name "transfer-to-invoice-agent"
    reason context runtime.tool_call_id
  { goto := Goto.node agent_name,
    update := some { messages := runtime.state.messages ++ [tool_message] } }

/-- The `transfer-to-music-catalog-agent` tool of `handoff_tools.py`. -/
def transfer_to_music_catalog_agent (runtime : ToolRuntime)
    (reason : String) (context : String) : Command :=
  let agent_name := "music_catalog_subagent"
  let tool_message := transferToolMessage agent_name "transfer-to-music-catalog-agent"
    reason context runtime.tool_call_id
  { goto := Goto.node agent_name,
    update := some { messages := runtime.state.messages ++ [tool_message] } }

/-- Supervisor prompt of the tool-call router. -/
def supervisor_prompt : String :=
  "You are an expert customer support assistant for a digital music store. You can handle music catalog or invoice related questions regarding past purchases, song or album availabilities.\n\nYour primary role is to serve as a supervisor for this multi-agent team that helps answer queries from customers.\n\nYour team is composed of two subagents:\n1. music_catalog_subagent: Has access to user\x27s saved music preferences and can retrieve information about the digital music store\x27s music catalog (albums, tracks, songs, etc.) from the database.\n2. invoice_information_subagent: Can retrieve information about a customer\x27s past purchases or invoices from the database.\n\nDECISION LOGIC:\n- If the user\x27s question needs specialist help AND no subagent has responded yet, use the appropriate handoff tool\n- If a subagent has already provided a response, DO NOT call tools again - instead, synthesize and present their response to the user in a helpful, conversational way\n- If the question is unrelated to music or invoices, respond directly without using tools\n\nIMPORTANT: After a subagent completes their task, if there\x27s no more help needed from your team, your job is to act as the final interface to the user - synthesize the subagent\x27s response and present it conversationally, don\x27t just add generic follow-ups."

/-- The tool-call supervisor node: one LLM call (stubbed as
`model_with_tools`) over prompt plus full history, returning a one-message
state update. -/
def supervisor_node (state : State)
    (model_with_tools : List Message → Message) : StateUpdate :=
  let messages := systemMessage supervisor_prompt :: state.messages
  let response := model_with_tools messages
  { messages := [response] }

/-- The conditional edge function: route to "tools" when the last message
carries tool calls, otherwise to END. Indexing `messages[-1]` on an empty
list raises, modelled as `Except.error`. -/
def should_continue (state : State) : Except String String :=
  match state.messages.getLast? with
  | none => Except.error "IndexError: list index out of range"
  | some last_message =>
    if last_message.tool_calls ≠ [] then Except.ok "tools" else Except.ok END

/-- One supervisor turn of the tool-call graph as the framework executes
it: run the supervisor node, merge its update into the state, then route
via the conditional edge on the merged state. -/
def supervisor_turn (state : State)
    (model_with_tools : List Message → Message) : State × Except String String :=
  let u := supervisor_node state model_with_tools
  let s2 := applyUpdate state u
  (s2, should_continue s2)

/-- Nodes of the tool-call graph (`add_node` calls). -/
def workflow_nodes : List String :=
  ["supervisor", "tools", "music_catalog_subagent", "invoice_information_subagent"]

/-- Static edges of the tool-call graph (`add_edge` calls). -/
def workflow_edges : List (String × String) :=
  [(START, "supervisor"),
   ("music_catalog_subagent", "supervisor"),
   ("invoice_information_subagent", "supervisor")]

/-- Conditional-edge targets of the supervisor node. -/
def supervisor_conditional_targets : List String := ["tools", END]

/-- Declared Command destinations of the tools node. -/
def tools_destinations : List String :=
  ["music_catalog_subagent", "invoice_information_subagent"]

/-- Successor node names of a node in the tool-call graph: static edges,
the conditional-edge targets of the supervisor, and the declared
Command destinations. -/
def successors (n : String) : List String :=
  (workflow_edges.filter (fun e => e.1 == n)).map (fun e => e.2) ++
    (if n == "supervisor" then supervisor_conditional_targets else []) ++
    (if n == "tools" then tools_destinations else [])

end HandoffTools

/-! Lemmas about the `add_messages` reducer. -/

/-- A message with no framework id matches no existing id. -/
lemma sameId_idNone_right (e m : Message) (h : m.id = none) :
    sameId e m = false := by
  unfold sameId
  rw [h]
  cases e.id <;> rfl

/-- Upserting a message whose id matches nothing appends it. -/
lemma upsert_fresh (H : List Message) (m : Message)
    (h : ∀ e ∈ H, sameId e m = false) : upsert H m = H ++ [m] := by
  unfold upsert
  rw [if_neg]
  intro hany
  rw [List.any_eq_true] at hany
  obtain ⟨e, he, hs⟩ := hany
  rw [h e he] at hs
  exact Bool.false_ne_true hs

/-- Mapping a function that fixes every element of a list is the identity. -/
lemma map_id_of {α : Type} (l : List α) (f : α → α)
    (h : ∀ a ∈ l, f a = a) : l.map f = l := by
  induction l with
  | nil => rfl
  | cons x xs ih =>
    simp only [List.map_cons, h x (List.mem_cons_self x xs)]
    rw [ih (fun a ha => h a (List.mem_cons_of_mem x ha))]

/-- Ids are all present in a message list. -/
def idsPresent (H : List Message) : Prop := ∀ e ∈ H, e.id.isSome = true

/-- No two distinct messages of a list share an id. -/
def idsInjective (H : List Message) : Prop :=
  ∀ a ∈ H, ∀ b ∈ H, sameId a b = true → a = b

/-- Upserting a message already in a list with present, pairwise-distinct
ids leaves the list unchanged (it replaces itself in place). -/
lemma upsert_mem (H : List Message) (m : Message)
    (hsome : idsPresent H) (hinj : idsInjective H) (hm : m ∈ H) :
    upsert H m = H := by
  have hself : sameId m m = true := by
    have hp := hsome m hm
    unfold sameId
    cases hid : m.id with
    | none => rw [hid] at hp; simp at hp
    | some x => simp
  unfold upsert
  rw [if_pos]
  · refine map_id_of H _ (fun e he => ?_)
    by_cases hs : sameId e m = true
    · rw [if_pos hs]
      exact (hinj e he m hm hs).symm
    · rw [if_neg hs]
  · exact List.any_eq_true.mpr ⟨m, hm, hself⟩

/-- Folding upsert over messages already present leaves the accumulator
unchanged. -/
lemma foldl_upsert_mem (H : List Message)
    (hsome : idsPresent H) (hinj : idsInjective H) :
    ∀ L : List Message, (∀ m ∈ L, m ∈ H) → L.foldl upsert H = H := by
  intro L
  induction L with
  | nil => intro _; rfl
  | cons m L ih =>
    intro hL
    have hm : m ∈ H := hL m (List.mem_cons_self m L)
    rw [List.foldl_cons, upsert_mem H m hsome hinj hm]
    exact ih (fun x hx => hL x (List.mem_cons_of_mem m hx))

/-- Merging a single fresh message appends it. -/
lemma add_messages_single_fresh (H : List Message) (m : Message)
    (h : ∀ e ∈ H, sameId e m = false) :
    add_messages H [m] = H ++ [m] := by
  unfold add_messages
  rw [List.foldl_cons, List.foldl_nil, upsert_fresh H m h]

/-- Merging the full prior history plus one fresh message back into the
state yields exactly the history with that message appended: the in-place
replacements are no-ops and only the fresh message is new. -/
lemma add_messages_self_append (H : List Message) (m : Message)
    (hsome : idsPresent H) (hinj : idsInjective H)
    (hfresh : ∀ e ∈ H, sameId e m = false) :
    add_messages H (H ++ [m]) = H ++ [m] := by
  unfold add_messages
  rw [List.foldl_append, List.foldl_cons, List.foldl_nil,
    foldl_upsert_mem H hsome hinj H (fun x hx => hx), upsert_fresh H m hfresh]

/-! Helper projections used to state the claims. -/

/-- The decision the structured-output model returns in `supervisor`
(prompt plus full history). -/
def CommandSend.routerDecision (s : State) (rm : List Message → Step) : CommandSend.Step :=
  rm (systemMessage CommandSend.supervisor_prompt :: s.messages)

/-- The summarization output of the second LLM call on the END branch
(summary prompt plus full history). -/
def CommandSend.summaryResponse (s : State) (model : List Message → Message) : Message :=
  model (systemMessage CommandSend.summary_prompt :: s.messages)

/-- The assistant response the tool-call supervisor obtains (prompt plus
full history). -/
def HandoffTools.modelResponse (s : State) (mwt : List Message → Message) : Message :=
  mwt (systemMessage HandoffTools.supervisor_prompt :: s.messages)

/-- The custom input state carried by the first Send of a router result,
when there is one. -/
def sendInputOf (r : Except String (Option Command)) : Option State :=
  match r with
  | Except.ok (some c) =>
    match c.goto with
    | Goto.sends ((_, st) :: _) => some st
    | _ => none
  | _ => none

/-- The authoritative state after the framework applies the update of a Command
(a Command with no update leaves the state unchanged). -/
def stateAfterCommand (s : State) (c : Command) : State :=
  match c.update with
  | some u => applyUpdate s u
  | none => s

/-! Concrete fixtures used by counterexamples and witnesses. -/

/-- A fixture history message with a present id. -/
def fixtureUserMsg : Message :=
  { id := some "m1", role := Role.user, content := "what albums do you have",
    tool_calls := [], name := none, tool_call_id := none }

/-- A fixture state carrying both optional fields. -/
def fixtureState : State :=
  { messages := [fixtureUserMsg], customer_id := some 7,
    loaded_memory := some "prefers jazz" }

/-- A fixture structured-output stub routing to the music specialist. -/
def fixtureRouterMusic : List Message → CommandSend.Step :=
  fun _ => { subagent := "music_catalog_subagent", context := "find jazz albums" }

/-- A fixture assistant reply with a fresh id and no tool calls. -/
def fixtureAssistantMsg : Message :=
  { id := some "m2", role := Role.assistant, content := "summary of the conversation",
    tool_calls := [], name := none, tool_call_id := none }

/-- A fixture chat-model stub returning `fixtureAssistantMsg`. -/
def fixtureModel : List Message → Message := fun _ => fixtureAssistantMsg

/-! Claim theorems. -/

/-- C1: whenever the routing decision targets the music specialist, the
structured-decision supervisor returns a Command whose goto is a single
Send to that specialist, and the message sequence of the Send input has length
exactly one and consists of the instruction text of the decision as a user-role
dict message, regardless of the prior history in the state. -/
theorem music_redirect_isolated_context
    (s : State) (rm : List Message → CommandSend.Step) (model : List Message → Message)
    (h : (CommandSend.routerDecision s rm).subagent = "music_catalog_subagent") :
    ∃ input : State,
      CommandSend.supervisor s rm model =
        Except.ok (some (⟨Goto.sends [("music_catalog_subagent", input)], none⟩ : Command)) ∧
      input.messages.length = 1 ∧
      input.messages = [userDictMessage (CommandSend.routerDecision s rm).context] ∧
      (userDictMessage (CommandSend.routerDecision s rm).context).role = Role.user ∧
      (userDictMessage (CommandSend.routerDecision s rm).context).content =
        (CommandSend.routerDecision s rm).context := by
  unfold CommandSend.routerDecision at h
  refine ⟨{ s with
    messages := [userDictMessage
      (rm (systemMessage CommandSend.supervisor_prompt :: s.messages)).context] },
    ?_, rfl, ?_, rfl, rfl⟩
  · simp [CommandSend.supervisor, h]
  · unfold CommandSend.routerDecision
    rfl

/-- C1 witness at a concrete state and stub. -/
theorem music_redirect_isolated_context_witness :
    ∃ input : State,
      CommandSend.supervisor fixtureState fixtureRouterMusic fixtureModel =
        Except.ok (some (⟨Goto.sends [("music_catalog_subagent", input)], none⟩ : Command)) ∧
      input.messages.length = 1 ∧
      input.messages = [userDictMessage
        (CommandSend.routerDecision fixtureState fixtureRouterMusic).context] ∧
      (userDictMessage (CommandSend.routerDecision fixtureState fixtureRouterMusic).context).role
        = Role.user ∧
      (userDictMessage (CommandSend.routerDecision fixtureState fixtureRouterMusic).context).content
        = (CommandSend.routerDecision fixtureState fixtureRouterMusic).context :=
  music_redirect_isolated_context fixtureState fixtureRouterMusic fixtureModel rfl

/-- C2 counterexample: at a concrete state carrying customer_id = 7 and a
memory string, the Send input built by the structured-decision supervisor
still carries both fields, contradicting the claim that they are dropped
(the source spreads the whole state and replaces only the messages key). -/
theorem send_input_keeps_fields_counterexample :
    Option.map (fun st : State => st.customer_id)
      (sendInputOf (CommandSend.supervisor fixtureState fixtureRouterMusic fixtureModel))
      = some (some 7) ∧
    Option.map (fun st : State => st.loaded_memory)
      (sendInputOf (CommandSend.supervisor fixtureState fixtureRouterMusic fixtureModel))
      = some (some "prefers jazz") := ⟨rfl, rfl⟩

/-- C2 amended: for any decision targeting either specialist, the Send
input preserves the customer_id and loaded_memory unchanged; only
the messages field is replaced. -/
theorem send_input_preserves_optional_fields
    (s : State) (rm : List Message → CommandSend.Step) (model : List Message → Message)
    (h : (CommandSend.routerDecision s rm).subagent = "music_catalog_subagent" ∨
      (CommandSend.routerDecision s rm).subagent = "invoice_information_subagent") :
    ∃ input : State,
      sendInputOf (CommandSend.supervisor s rm model) = some input ∧
      input.customer_id = s.customer_id ∧
      input.loaded_memory = s.loaded_memory := by
  unfold CommandSend.routerDecision at h
  rcases h with h | h
  · refine ⟨{ s with messages := [userDictMessage (rm (systemMessage CommandSend.supervisor_prompt :: s.messages)).context] }, ?_, rfl, rfl⟩
    simp [sendInputOf, CommandSend.supervisor, h]
  · refine ⟨{ s with messages := [userDictMessage (rm (systemMessage CommandSend.supervisor_prompt :: s.messages)).context] }, ?_, rfl, rfl⟩
    simp [sendInputOf, CommandSend.supervisor, h]

/-- C2 amended witness at a concrete state and stub. -/
theorem send_input_preserves_optional_fields_witness :
    ∃ input : State,
      sendInputOf (CommandSend.supervisor fixtureState fixtureRouterMusic fixtureModel)
        = some input ∧
      input.customer_id = fixtureState.customer_id ∧
      input.loaded_memory = fixtureState.loaded_memory :=
  send_input_preserves_optional_fields fixtureState fixtureRouterMusic fixtureModel
    (Or.inl rfl)

/-- C3: when the subagent field of the decision is falsy (unset), the
structured-decision supervisor raises ValueError: the result is an error,
carrying no Command, hence no redirect and no state update. -/
theorem unset_subagent_raises
    (s : State) (rm : List Message → CommandSend.Step) (model : List Message → Message)
    (h : (CommandSend.routerDecision s rm).subagent = "") :
    CommandSend.supervisor s rm model = Except.error "Invalid step" := by
  unfold CommandSend.routerDecision at h
  simp [CommandSend.supervisor, h]

/-- C3 witness at a concrete state and an unset-target stub. -/
theorem unset_subagent_raises_witness :
    CommandSend.supervisor fixtureState
      (fun _ => { subagent := "", context := "c" }) fixtureModel
      = Except.error "Invalid step" :=
  unset_subagent_raises fixtureState (fun _ => { subagent := "", context := "c" })
    fixtureModel rfl

/-- C4: when the decision is END, the structured-decision supervisor
terminates the turn with goto END and an update holding exactly the
summarization output (the second LLM call over the summary prompt plus the
full history); merging the update yields the prior history plus exactly
one new assistant-role message. -/
theorem end_branch_appends_summary
    (s : State) (rm : List Message → CommandSend.Step) (model : List Message → Message)
    (h : (CommandSend.routerDecision s rm).subagent = "END")
    (hrole : (CommandSend.summaryResponse s model).role = Role.assistant)
    (hfresh : ∀ e ∈ s.messages, sameId e (CommandSend.summaryResponse s model) = false) :
    ∃ u : StateUpdate,
      CommandSend.supervisor s rm model =
        Except.ok (some (⟨Goto.node END, some u⟩ : Command)) ∧
      u.messages = [CommandSend.summaryResponse s model] ∧
      (applyUpdate s u).messages = s.messages ++ [CommandSend.summaryResponse s model] ∧
      (applyUpdate s u).messages.length = s.messages.length + 1 ∧
      (CommandSend.summaryResponse s model).role = Role.assistant := by
  unfold CommandSend.routerDecision at h
  unfold CommandSend.summaryResponse at hrole hfresh ⊢
  have hadd := add_messages_single_fresh s.messages
    (model (systemMessage CommandSend.summary_prompt :: s.messages)) hfresh
  refine ⟨{ messages := [model (systemMessage CommandSend.summary_prompt :: s.messages)] },
    ?_, rfl, ?_, ?_, hrole⟩
  · simp [CommandSend.supervisor, h]
  · simpa [applyUpdate] using hadd
  · simp [applyUpdate, hadd]

/-- C4 witness at a concrete state and stubs. -/
theorem end_branch_appends_summary_witness :
    ∃ u : StateUpdate,
      CommandSend.supervisor fixtureState
        (fun _ => { subagent := "END", context := "c" }) fixtureModel =
        Except.ok (some (⟨Goto.node END, some u⟩ : Command)) ∧
      u.messages = [CommandSend.summaryResponse fixtureState fixtureModel] ∧
      (applyUpdate fixtureState u).messages =
        fixtureState.messages ++ [CommandSend.summaryResponse fixtureState fixtureModel] ∧
      (applyUpdate fixtureState u).messages.length = fixtureState.messages.length + 1 ∧
      (CommandSend.summaryResponse fixtureState fixtureModel).role = Role.assistant :=
  end_branch_appends_summary fixtureState (fun _ => { subagent := "END", context := "c" })
    fixtureModel rfl rfl (by decide)

/-- C5: each transfer tool navigates to its specialist node and its update,
once merged by the reducer, equals the full prior history with exactly one
synthetic tool-result message appended (the in-place re-merge of the
history is a no-op), so no message of the history is lost or reordered. -/
theorem transfer_tools_append_handoff_message
    (rt : HandoffTools.ToolRuntime) (reason context : String)
    (hsome : idsPresent rt.state.messages) (hinj : idsInjective rt.state.messages) :
    (HandoffTools.transfer_to_invoice_agent rt reason context).goto =
      Goto.node "invoice_information_subagent" ∧
    (HandoffTools.transfer_to_music_catalog_agent rt reason context).goto =
      Goto.node "music_catalog_subagent" ∧
    (stateAfterCommand rt.state (HandoffTools.transfer_to_invoice_agent rt reason context)).messages
      = rt.state.messages ++ [HandoffTools.transferToolMessage "invoice_information_subagent"
          "transfer-to-invoice-agent" reason context rt.tool_call_id] ∧
    (stateAfterCommand rt.state (HandoffTools.transfer_to_music_catalog_agent rt reason context)).messages
      = rt.state.messages ++ [HandoffTools.transferToolMessage "music_catalog_subagent"
          "transfer-to-music-catalog-agent" reason context rt.tool_call_id] ∧
    (HandoffTools.transferToolMessage "invoice_information_subagent"
      "transfer-to-invoice-agent" reason context rt.tool_call_id).role = Role.tool ∧
    (HandoffTools.transferToolMessage "music_catalog_subagent"
      "transfer-to-music-catalog-agent" reason context rt.tool_call_id).role = Role.tool := by
  have hf₁ : ∀ e ∈ rt.state.messages,
      sameId e (HandoffTools.transferToolMessage "invoice_information_subagent"
        "transfer-to-invoice-agent" reason context rt.tool_call_id) = false :=
    fun e _ => sameId_idNone_right e _ rfl
  have hf₂ : ∀ e ∈ rt.state.messages,
      sameId e (HandoffTools.transferToolMessage "music_catalog_subagent"
        "transfer-to-music-catalog-agent" reason context rt.tool_call_id) = false :=
    fun e _ => sameId_idNone_right e _ rfl
  refine ⟨rfl, rfl, ?_, ?_, rfl, rfl⟩
  · exact add_messages_self_append rt.state.messages _ hsome hinj hf₁
  · exact add_messages_self_append rt.state.messages _ hsome hinj hf₂

/-- C5 witness at a concrete runtime. -/
theorem transfer_tools_append_handoff_message_witness :
    (HandoffTools.transfer_to_invoice_agent ⟨fixtureState, "tc1"⟩ "r" "c").goto =
      Goto.node "invoice_information_subagent" ∧
    (HandoffTools.transfer_to_music_catalog_agent ⟨fixtureState, "tc1"⟩ "r" "c").goto =
      Goto.node "music_catalog_subagent" ∧
    (stateAfterCommand fixtureState
        (HandoffTools.transfer_to_invoice_agent ⟨fixtureState, "tc1"⟩ "r" "c")).messages
      = fixtureState.messages ++ [HandoffTools.transferToolMessage "invoice_information_subagent"
          "transfer-to-invoice-agent" "r" "c" "tc1"] ∧
    (stateAfterCommand fixtureState
        (HandoffTools.transfer_to_music_catalog_agent ⟨fixtureState, "tc1"⟩ "r" "c")).messages
      = fixtureState.messages ++ [HandoffTools.transferToolMessage "music_catalog_subagent"
          "transfer-to-music-catalog-agent" "r" "c" "tc1"] ∧
    (HandoffTools.transferToolMessage "invoice_information_subagent"
      "transfer-to-invoice-agent" "r" "c" "tc1").role = Role.tool ∧
    (HandoffTools.transferToolMessage "music_catalog_subagent"
      "transfer-to-music-catalog-agent" "r" "c" "tc1").role = Role.tool :=
  transfer_tools_append_handoff_message ⟨fixtureState, "tc1"⟩ "r" "c"
    (by unfold idsPresent; decide) (by unfold idsInjective; decide)

/-- C6: when the model response of the tool-call supervisor carries no tool
calls, one supervisor turn appends exactly that response to the history and
the conditional edge routes to END; no other field of the state changes. -/
theorem no_tool_calls_terminates_append_only
    (s : State) (mwt : List Message → Message)
    (hnc : (HandoffTools.modelResponse s mwt).tool_calls = [])
    (hfresh : ∀ e ∈ s.messages, sameId e (HandoffTools.modelResponse s mwt) = false) :
    HandoffTools.supervisor_turn s mwt =
      ({ s with messages := s.messages ++ [HandoffTools.modelResponse s mwt] },
        Except.ok END) := by
  unfold HandoffTools.modelResponse at hnc hfresh ⊢
  have hadd := add_messages_single_fresh s.messages
    (mwt (systemMessage HandoffTools.supervisor_prompt :: s.messages)) hfresh
  unfold HandoffTools.supervisor_turn HandoffTools.supervisor_node applyUpdate
  simp only [hadd]
  simp [HandoffTools.should_continue, List.getLast?_concat, hnc]

/-- C6 witness at a concrete state and stub. -/
theorem no_tool_calls_terminates_append_only_witness :
    HandoffTools.supervisor_turn fixtureState fixtureModel =
      ({ fixtureState with messages :=
          fixtureState.messages ++ [HandoffTools.modelResponse fixtureState fixtureModel] },
        Except.ok END) :=
  no_tool_calls_terminates_append_only fixtureState fixtureModel rfl (by decide)

/-- C7: in both graphs the only successor of every specialist node is the
supervisor node, and among the declared nodes only the supervisor (via its
END branch / conditional edge) can reach termination. -/
theorem specialists_return_to_supervisor :
    CommandSend.successors "music_catalog_subagent" = ["supervisor"] ∧
    CommandSend.successors "invoice_information_subagent" = ["supervisor"] ∧
    HandoffTools.successors "music_catalog_subagent" = ["supervisor"] ∧
    HandoffTools.successors "invoice_information_subagent" = ["supervisor"] ∧
    (∀ n ∈ CommandSend.workflow_nodes, END ∈ CommandSend.successors n → n = "supervisor") ∧
    (∀ n ∈ HandoffTools.workflow_nodes, END ∈ HandoffTools.successors n → n = "supervisor") := by
  refine ⟨by decide, by decide, by decide, by decide, by decide, by decide⟩

/-- C7 witness: the END-reaching node of each graph is the supervisor. -/
theorem specialists_return_to_supervisor_witness :
    CommandSend.successors "music_catalog_subagent" = ["supervisor"] ∧
    ("supervisor" : String) = "supervisor" ∧ ("supervisor" : String) = "supervisor" :=
  ⟨specialists_return_to_supervisor.1,
    specialists_return_to_supervisor.2.2.2.2.1 "supervisor" (by decide) (by decide),
    specialists_return_to_supervisor.2.2.2.2.2 "supervisor" (by decide) (by decide)⟩

/-- C8: every router step is append-only on the authoritative message
sequence (the merged result extends the prior sequence), and a valid
structured decision yields exactly one Command whose targets are a single
node among the two specialists and termination. -/
theorem router_steps_append_only
    (s : State) (rm : List Message → CommandSend.Step) (model mwt : List Message → Message)
    (rt : HandoffTools.ToolRuntime) (reason context : String)
    (hvalid : (CommandSend.routerDecision s rm).subagent = "music_catalog_subagent" ∨
      (CommandSend.routerDecision s rm).subagent = "invoice_information_subagent" ∨
      (CommandSend.routerDecision s rm).subagent = "END")
    (hfreshm : ∀ e ∈ s.messages, sameId e (CommandSend.summaryResponse s model) = false)
    (hfreshr : ∀ e ∈ s.messages, sameId e (HandoffTools.modelResponse s mwt) = false)
    (hsome : idsPresent rt.state.messages) (hinj : idsInjective rt.state.messages) :
    (∃ c : Command, CommandSend.supervisor s rm model = Except.ok (some c) ∧
      (commandTargets c).length = 1 ∧
      (∀ x ∈ commandTargets c,
        x ∈ (["music_catalog_subagent", "invoice_information_subagent", "__end__"] : List String)) ∧
      ∃ t, (stateAfterCommand s c).messages = s.messages ++ t) ∧
    (∃ t, (stateAfterCommand rt.state
        (HandoffTools.transfer_to_invoice_agent rt reason context)).messages
      = rt.state.messages ++ t) ∧
    (∃ t, (stateAfterCommand rt.state
        (HandoffTools.transfer_to_music_catalog_agent rt reason context)).messages
      = rt.state.messages ++ t) ∧
    (∃ t, (HandoffTools.supervisor_turn s mwt).1.messages = s.messages ++ t) := by
  unfold CommandSend.routerDecision at hvalid
  unfold CommandSend.summaryResponse at hfreshm
  unfold HandoffTools.modelResponse at hfreshr
  refine ⟨?_, ?_, ?_, ?_⟩
  · rcases hvalid with h | h | h
    · refine ⟨⟨Goto.sends [(("music_catalog_subagent" : String),
        { s with messages := [userDictMessage
          (rm (systemMessage CommandSend.supervisor_prompt :: s.messages)).context] })], none⟩,
        ?_, by simp [commandTargets], by simp [commandTargets], ⟨[], by simp [stateAfterCommand]⟩⟩
      simp [CommandSend.supervisor, h]
    · refine ⟨⟨Goto.sends [(("invoice_information_subagent" : String),
        { s with messages := [userDictMessage
          (rm (systemMessage CommandSend.supervisor_prompt :: s.messages)).context] })], none⟩,
        ?_, by simp [commandTargets], by simp [commandTargets], ⟨[], by simp [stateAfterCommand]⟩⟩
      simp [CommandSend.supervisor, h]
    · refine ⟨⟨Goto.node END, some { messages :=
        [model (systemMessage CommandSend.summary_prompt :: s.messages)] }⟩,
        ?_, by simp [commandTargets], by simp [commandTargets, END], ?_⟩
      · simp [CommandSend.supervisor, h]
      · exact ⟨[model (systemMessage CommandSend.summary_prompt :: s.messages)],
          by simpa [stateAfterCommand, applyUpdate] using
            add_messages_single_fresh s.messages _ hfreshm⟩
  · exact ⟨[HandoffTools.transferToolMessage "invoice_information_subagent"
      "transfer-to-invoice-agent" reason context rt.tool_call_id],
      add_messages_self_append rt.state.messages _ hsome hinj
        (fun e _ => sameId_idNone_right e _ rfl)⟩
  · exact ⟨[HandoffTools.transferToolMessage "music_catalog_subagent"
      "transfer-to-music-catalog-agent" reason context rt.tool_call_id],
      add_messages_self_append rt.state.messages _ hsome hinj
        (fun e _ => sameId_idNone_right e _ rfl)⟩
  · exact ⟨[mwt (systemMessage HandoffTools.supervisor_prompt :: s.messages)],
      by simpa [HandoffTools.supervisor_turn, HandoffTools.supervisor_node, applyUpdate]
        using add_messages_single_fresh s.messages _ hfreshr⟩

/-- C8 witness at concrete fixtures. -/
theorem router_steps_append_only_witness :
    (∃ c : Command,
      CommandSend.supervisor fixtureState fixtureRouterMusic fixtureModel
        = Except.ok (some c) ∧
      (commandTargets c).length = 1 ∧
      (∀ x ∈ commandTargets c,
        x ∈ (["music_catalog_subagent", "invoice_information_subagent", "__end__"] : List String)) ∧
      ∃ t, (stateAfterCommand fixtureState c).messages = fixtureState.messages ++ t) ∧
    (∃ t, (stateAfterCommand fixtureState
        (HandoffTools.transfer_to_invoice_agent ⟨fixtureState, "tc1"⟩ "r" "c")).messages
      = fixtureState.messages ++ t) ∧
    (∃ t, (stateAfterCommand fixtureState
        (HandoffTools.transfer_to_music_catalog_agent ⟨fixtureState, "tc1"⟩ "r" "c")).messages
      = fixtureState.messages ++ t) ∧
    (∃ t, (HandoffTools.supervisor_turn fixtureState fixtureModel).1.messages
      = fixtureState.messages ++ t) :=
  router_steps_append_only fixtureState fixtureRouterMusic fixtureModel fixtureModel
    ⟨fixtureState, "tc1"⟩ "r" "c" (Or.inl rfl) (by decide) (by decide)
    (by unfold idsPresent; decide) (by unfold idsInjective; decide)

/-- C9: both routers are deterministic given deterministic (stubbed) LLM
output: running either router twice on the same state with equal stubs
yields equal results (same redirect target, same resulting state). -/
theorem routers_deterministic
    (s : State) (rm₁ rm₂ : List Message → CommandSend.Step)
    (m₁ m₂ mwt₁ mwt₂ : List Message → Message)
    (h₁ : rm₁ = rm₂) (h₂ : m₁ = m₂) (h₃ : mwt₁ = mwt₂) :
    CommandSend.supervisor s rm₁ m₁ = CommandSend.supervisor s rm₂ m₂ ∧
    HandoffTools.supervisor_turn s mwt₁ = HandoffTools.supervisor_turn s mwt₂ := by
  subst h₁
  subst h₂
  subst h₃
  exact ⟨rfl, rfl⟩

/-- C9 witness at concrete fixtures. -/
theorem routers_deterministic_witness :
    CommandSend.supervisor fixtureState fixtureRouterMusic fixtureModel =
      CommandSend.supervisor fixtureState fixtureRouterMusic fixtureModel ∧
    HandoffTools.supervisor_turn fixtureState fixtureModel =
      HandoffTools.supervisor_turn fixtureState fixtureModel :=
  routers_deterministic fixtureState fixtureRouterMusic fixtureRouterMusic
    fixtureModel fixtureModel fixtureModel fixtureModel rfl rfl rfl

/-- C10: the fatal branch of the structured-decision supervisor fires
exactly when the subagent field of the decision is falsy; a truthy value other
than the three schema literals raises nothing and yields no Command (the
function falls through to None); each of the three literals always yields
a Command. -/
theorem supervisor_branch_coverage
    (s : State) (rm : List Message → CommandSend.Step) (model : List Message → Message) :
    ((CommandSend.routerDecision s rm).subagent = "" ↔
      CommandSend.supervisor s rm model = Except.error "Invalid step") ∧
    ((CommandSend.routerDecision s rm).subagent ≠ "" ∧
      (CommandSend.routerDecision s rm).subagent ≠ "music_catalog_subagent" ∧
      (CommandSend.routerDecision s rm).subagent ≠ "invoice_information_subagent" ∧
      (CommandSend.routerDecision s rm).subagent ≠ "END" →
      CommandSend.supervisor s rm model = Except.ok none) ∧
    ((CommandSend.routerDecision s rm).subagent = "music_catalog_subagent" ∨
      (CommandSend.routerDecision s rm).subagent = "invoice_information_subagent" ∨
      (CommandSend.routerDecision s rm).subagent = "END" →
      ∃ c, CommandSend.supervisor s rm model = Except.ok (some c)) := by
  unfold CommandSend.routerDecision
  refine ⟨⟨fun h => by simp [CommandSend.supervisor, h], fun herr => ?_⟩, fun h => ?_, fun h => ?_⟩
  · by_cases h1 : (rm (systemMessage CommandSend.supervisor_prompt :: s.messages)).subagent = ""
    · exact h1
    · exfalso
      by_cases h2 : (rm (systemMessage CommandSend.supervisor_prompt :: s.messages)).subagent
          = "music_catalog_subagent"
      · simp [CommandSend.supervisor, h2] at herr
      · by_cases h3 : (rm (systemMessage CommandSend.supervisor_prompt :: s.messages)).subagent
            = "invoice_information_subagent"
        · simp [CommandSend.supervisor, h3] at herr
        · by_cases h4 : (rm (systemMessage CommandSend.supervisor_prompt :: s.messages)).subagent
              = "END"
          · simp [CommandSend.supervisor, h4] at herr
          · simp [CommandSend.supervisor, h1, h2, h3, h4] at herr
  · obtain ⟨h1, h2, h3, h4⟩ := h
    simp [CommandSend.supervisor, h1, h2, h3, h4]
  · rcases h with h | h | h
    · exact ⟨⟨Goto.sends [(("music_catalog_subagent" : String),
        { s with messages := [userDictMessage
          (rm (systemMessage CommandSend.supervisor_prompt :: s.messages)).context] })], none⟩,
        by simp [CommandSend.supervisor, h]⟩
    · exact ⟨⟨Goto.sends [(("invoice_information_subagent" : String),
        { s with messages := [userDictMessage
          (rm (systemMessage CommandSend.supervisor_prompt :: s.messages)).context] })], none⟩,
        by simp [CommandSend.supervisor, h]⟩
    · exact ⟨⟨Goto.node END, some { messages :=
        [model (systemMessage CommandSend.summary_prompt :: s.messages)] }⟩,
        by simp [CommandSend.supervisor, h]⟩

/-- C10 witness: a truthy non-literal target falls through to None and a
literal target yields a Command. -/
theorem supervisor_branch_coverage_witness :
    CommandSend.supervisor fixtureState
      (fun _ => { subagent := "bogus_subagent", context := "c" }) fixtureModel
      = Except.ok none ∧
    ∃ c, CommandSend.supervisor fixtureState fixtureRouterMusic fixtureModel
      = Except.ok (some c) :=
  ⟨(supervisor_branch_coverage fixtureState
      (fun _ => { subagent := "bogus_subagent", context := "c" }) fixtureModel).2.1
      ⟨by decide, by decide, by decide, by decide⟩,
    (supervisor_branch_coverage fixtureState fixtureRouterMusic fixtureModel).2.2
      (Or.inl rfl)⟩

end MultiAgent
